import Mathlib

/-!
Shallow embedding of `custom_components/tile_tracker/button.py` (Tile Tracker
button platform): the device snapshot data model, the per-button availability
predicates, the press handlers (modelled as pure functions returning the lists
of backend calls and log events they perform), and the new-tile reconciliation
callback `async_check_new_tiles`.
-/

namespace TileTracker

/-- Embeds `TileDevice` (declared in `tile_api.py`, used by `button.py`): one
device snapshot with identity, display name, optional model/firmware/hardware
metadata and an optional authorization credential (`auth_key`). Optional string
fields are `Option String`; Python `None` is `none`. -/
structure TileDevice where
  tile_uuid : String
  name : String
  tile_type : Option String
  firmware_version : Option String
  hardware_version : Option String
  auth_key : Option String
  deriving Repr, DecidableEq

/-- Embeds the coordinator state the buttons read: `coordinator.data` (the
Device Dataset, a mapping from tile uuid to `TileDevice`, modelled as an
association list; Python `None` and the empty dict are both the empty list,
which are indistinguishable to every read in `button.py`) and
`coordinator.last_update_success`. -/
structure Coordinator where
  data : List (String × TileDevice)
  last_update_success : Bool
  deriving Repr, DecidableEq

/-- Embeds Python truthiness `bool(x)` for an `Optional[str]`: `None` and the
empty string are falsy, every other string is truthy. Used for
`bool(tile.auth_key)` at button.py:165 and for `x or y` fallbacks. -/
def pyTruthyOptStr : Option String → Bool
  | none => false
  | some s => !(s == "")

/-- Embeds Python `x or default` for `x : Optional[str]` with a string
default (button.py:153 `self.tile.tile_type or "Tile Tracker"`). -/
def pyOrStr (x : Option String) (default : String) : String :=
  if pyTruthyOptStr x then x.getD default else default

/-- Embeds Python `dict.get(key)` on the Device Dataset. -/
def dictGet (d : List (String × TileDevice)) (k : String) : Option TileDevice :=
  (d.find? (fun p => p.1 == k)).map Prod.snd

/-- Embeds the shared `tile` property (button.py:132-137, 203-208, 261-266):
`if self.coordinator.data: return self.coordinator.data.get(self._tile_uuid)`
else `None`. The emptiness guard mirrors Python truthiness of the dict. -/
def buttonTile (c : Coordinator) (tile_uuid : String) : Option TileDevice :=
  if c.data.isEmpty then none else dictGet c.data tile_uuid

/-- Guard on the empty dataset is redundant: `buttonTile` agrees with a plain
dataset lookup. -/
theorem buttonTile_eq_dictGet (c : Coordinator) (u : String) :
    buttonTile c u = dictGet c.data u := by
  unfold buttonTile dictGet
  cases h : c.data with
  | nil => simp
  | cons a l => simp [List.isEmpty]

/-- Embeds `TileLocateButton.available` (button.py:158-166):
`self.coordinator.last_update_success and tile is not None and
bool(tile.auth_key)`. -/
def tileLocateButtonAvailable (c : Coordinator) (tile_uuid : String) : Bool :=
  c.last_update_success &&
    match buttonTile c tile_uuid with
    | none => false
    | some tile => pyTruthyOptStr tile.auth_key

/-- Embeds `TileRefreshDeviceButton.available` (button.py:229-232):
`self.coordinator.last_update_success and self.tile is not None`. -/
def tileRefreshDeviceButtonAvailable (c : Coordinator) (tile_uuid : String) : Bool :=
  c.last_update_success && (buttonTile c tile_uuid).isSome

/-- Embeds `TileScanButton.available` (button.py:287-290):
`self.coordinator.last_update_success and self.tile is not None`. -/
def tileScanButtonAvailable (c : Coordinator) (tile_uuid : String) : Bool :=
  c.last_update_success && (buttonTile c tile_uuid).isSome

/-- Embeds `TileRefreshButton`'s availability. The class (button.py:76-108)
defines no `available` property of its own; by Python method resolution it
inherits `CoordinatorEntity.available` from the imported Home Assistant base
class (button.py:16), whose body is `return self.coordinator.last_update_success`. -/
def tileRefreshButtonAvailable (c : Coordinator) : Bool :=
  c.last_update_success

/-- Embeds the `DeviceInfo` dict returned by the three identical `device_info`
properties (button.py:144-156, 215-227, 273-285). `identifiers` keeps only the
uuid component of `(DOMAIN, tile_uuid)`; `manufacturer` is the literal "Tile". -/
structure DeviceInfo where
  identifiers : String
  name : String
  manufacturer : String
  model : String
  sw_version : Option String
  hw_version : Option String
  deriving Repr, DecidableEq

/-- Embeds the body shared by the three `device_info` properties: `None` when
`self.tile` is `None`, otherwise the metadata dict built from the snapshot. -/
def tileButtonDeviceInfoBody (c : Coordinator) (tile_uuid : String) : Option DeviceInfo :=
  match buttonTile c tile_uuid with
  | none => none
  | some tile => some
      { identifiers := tile.tile_uuid
        name := tile.name
        manufacturer := "Tile"
        model := pyOrStr tile.tile_type "Tile Tracker"
        sw_version := tile.firmware_version
        hw_version := tile.hardware_version }

/-- Embeds `TileLocateButton.device_info` (button.py:144-156). -/
def tileLocateButtonDeviceInfo (c : Coordinator) (tile_uuid : String) : Option DeviceInfo :=
  tileButtonDeviceInfoBody c tile_uuid

/-- Embeds `TileRefreshDeviceButton.device_info` (button.py:215-227), textually
identical to the locate variant. -/
def tileRefreshDeviceButtonDeviceInfo (c : Coordinator) (tile_uuid : String) : Option DeviceInfo :=
  tileButtonDeviceInfoBody c tile_uuid

/-- Embeds `TileScanButton.device_info` (button.py:273-285), textually identical
to the locate variant. -/
def tileScanButtonDeviceInfo (c : Coordinator) (tile_uuid : String) : Option DeviceInfo :=
  tileButtonDeviceInfoBody c tile_uuid

/-- Log levels of the `_LOGGER` calls appearing in button.py. -/
inductive LogLevel where
  | debug
  | info
  | warning
  | error
  deriving Repr, DecidableEq

/-- One log event: level plus the fully formatted message. -/
structure LogEvent where
  level : LogLevel
  msg : String
  deriving Repr, DecidableEq

/-- The backend calls a button press can issue: a refresh request to the
coordinator (`coordinator.async_request_refresh()`), a cloud ring call
(`tile_service.ring_tile`, carrying the snapshot's uuid and credential), or a
radio scan (`tile_service.find_tile_ble(tile_uuid, force_scan)`). -/
inductive BackendCall where
  | requestRefresh
  | ringTile (tile_uuid : String) (auth_key : Option String)
  | findTileBle (tile_uuid : String) (force_scan : Bool)
  deriving Repr, DecidableEq

/-- Observable effects of one press: backend calls issued and log events
emitted, each in program order. -/
structure Effects where
  calls : List BackendCall
  logs : List LogEvent
  deriving Repr, DecidableEq

/-- Embeds `TileRefreshButton.async_press` (button.py:105-108): a debug log and
one `coordinator.async_request_refresh()` call. -/
def tileRefreshButtonPress : Effects :=
  { calls := [BackendCall.requestRefresh]
    logs := [⟨LogLevel.debug, "Refresh Tiles button pressed"⟩] }

/-- Embeds `TileRefreshDeviceButton.async_press` (button.py:234-237): a debug
log naming the uuid and one `coordinator.async_request_refresh()` call. -/
def tileRefreshDeviceButtonPress (tile_uuid : String) : Effects :=
  { calls := [BackendCall.requestRefresh]
    logs := [⟨LogLevel.debug, "Refreshing Tile: " ++ tile_uuid⟩] }

/-- Modelled from the spec: `tile_service.ring_tile` lives in
`tile_service.py`, which is part of this repository but not among the provided
sources. Per the spec's Action Router `locate` operation, when the snapshot's
authorization credential is absent/empty the invocation is treated as a failed
ring with no backend call; otherwise a ring request is issued to the cloud
backend using the snapshot's identity and credential, returning the cloud
call's boolean success (here a parameter `cloudRingSuccess`). Returns the
boolean result together with the backend calls issued. -/
def ring_tile (tile : TileDevice) (cloudRingSuccess : Bool) : Bool × List BackendCall :=
  if pyTruthyOptStr tile.auth_key then
    (cloudRingSuccess, [BackendCall.ringTile tile.tile_uuid tile.auth_key])
  else
    (false, [])

/-- Embeds `TileLocateButton.async_press` (button.py:168-181): resolve the
tile; if absent log one error and return; otherwise log info, call
`tile_service.ring_tile` (spec-modelled above), and on a false result log one
warning. `cloudRingSuccess` is the cloud backend's response. -/
def tileLocateButtonPress (c : Coordinator) (tile_uuid : String)
    (cloudRingSuccess : Bool) : Effects :=
  match buttonTile c tile_uuid with
  | none =>
      { calls := []
        logs := [⟨LogLevel.error, "Tile not found: " ++ tile_uuid⟩] }
  | some tile =>
      let r := ring_tile tile cloudRingSuccess
      { calls := r.2
        logs := [⟨LogLevel.info, "Locating Tile: " ++ tile.name⟩] ++
          (if r.1 then [] else [⟨LogLevel.warning, "Failed to ring Tile " ++ tile.name⟩]) }

/-- The radio backend's answer to `find_tile_ble`: a discovered device record
or nothing. Only the address is read by button.py. -/
structure BleDevice where
  address : String
  deriving Repr, DecidableEq

/-- Embeds `TileScanButton.async_press` (button.py:292-310): resolve the tile;
if absent log one error and return; otherwise log info, call
`tile_service.find_tile_ble(tile_uuid=self._tile_uuid, force_scan=True)`, then
log the address on a find or one warning on none. `bleResult` is the radio
backend's response. -/
def tileScanButtonPress (c : Coordinator) (tile_uuid : String)
    (bleResult : Option BleDevice) : Effects :=
  match buttonTile c tile_uuid with
  | none =>
      { calls := []
        logs := [⟨LogLevel.error, "Tile not found: " ++ tile_uuid⟩] }
  | some tile =>
      { calls := [BackendCall.findTileBle tile_uuid true]
        logs := [⟨LogLevel.info, "Scanning for Tile: " ++ tile.name⟩] ++
          (match bleResult with
           | some device =>
               [⟨LogLevel.info, "Found Tile " ++ tile.name ++ " at " ++ device.address⟩]
           | none =>
               [⟨LogLevel.warning, "Tile " ++ tile.name ++ " not found nearby"⟩]) }

/-- The three per-device surface kinds created for each tile uuid. -/
inductive SurfaceKind where
  | locate
  | refreshDevice
  | scan
  deriving Repr, DecidableEq

/-- One registered per-device control surface: its kind and target uuid.
Locate surfaces are the ones whose entity ids contain "_locate" and which
expose the `tile_uuid` extra state attribute read back by the reconciler. -/
structure Surface where
  kind : SurfaceKind
  tile_uuid : String
  deriving Repr, DecidableEq

/-- Embeds the `existing_uuids` computation of `async_check_new_tiles`
(button.py:52-57): the uuids read from the `tile_uuid` attribute of every
registered button entity whose entity id contains "_locate", i.e. every
registered locate surface. -/
def existingUuids (surfaces : List Surface) : List String :=
  (surfaces.filter (fun s => s.kind == SurfaceKind.locate)).map Surface.tile_uuid

/-- Embeds the Locate/Refresh/Scan triple created for one newly seen uuid
(button.py:62-66). -/
def tileEntityTriple (tile_uuid : String) : List Surface :=
  [⟨SurfaceKind.locate, tile_uuid⟩,
   ⟨SurfaceKind.refreshDevice, tile_uuid⟩,
   ⟨SurfaceKind.scan, tile_uuid⟩]

/-- Embeds the `new_entities` loop of `async_check_new_tiles`
(button.py:59-66): one surface triple per uuid of `coordinator.data` not among
the existing locate-surface uuids, in dataset order. -/
def newTileEntities (data : List (String × TileDevice)) (surfaces : List Surface) :
    List Surface :=
  ((data.map Prod.fst).filter
      (fun u => !(existingUuids surfaces).contains u)).flatMap tileEntityTriple

/-- Embeds `async_check_new_tiles` (button.py:49-73) acting on the registered
surface set: `async_add_entities(new_entities)` registers the new surfaces in
addition to the existing ones, which are never removed. -/
def async_check_new_tiles (data : List (String × TileDevice))
    (surfaces : List Surface) : List Surface :=
  surfaces ++ newTileEntities data surfaces

/-- Claim C1: the Locate surface is available iff the last dataset refresh
succeeded, the identity is present in the current Device Dataset, and that
device's authorization credential is non-empty; in particular it is false
whenever the credential is empty or the last refresh failed. -/
theorem locate_available_iff_success_present_auth (c : Coordinator) (u : String) :
    tileLocateButtonAvailable c u = true ↔
      (c.last_update_success = true ∧
        ∃ t, dictGet c.data u = some t ∧ ∃ s, t.auth_key = some s ∧ s ≠ "") := by
  unfold tileLocateButtonAvailable
  rw [buttonTile_eq_dictGet]
  cases h : dictGet c.data u with
  | none => simp
  | some t =>
    cases hk : t.auth_key with
    | none => simp [pyTruthyOptStr, hk]
    | some s => by_cases hs : s = "" <;> simp [pyTruthyOptStr, hk, hs]

/-- Claim C6: the per-device Refresh surface and the Scan surface are each
available iff the last refresh succeeded and the identity is present in the
dataset; no authorization-credential condition appears in either predicate. -/
theorem refresh_and_scan_available_iff_success_present (c : Coordinator) (u : String) :
    (tileRefreshDeviceButtonAvailable c u = true ↔
       (c.last_update_success = true ∧ ∃ t, dictGet c.data u = some t)) ∧
    (tileScanButtonAvailable c u = true ↔
       (c.last_update_success = true ∧ ∃ t, dictGet c.data u = some t)) := by
  unfold tileRefreshDeviceButtonAvailable tileScanButtonAvailable
  rw [buttonTile_eq_dictGet]
  constructor <;> (cases h : dictGet c.data u <;> simp)

/-- Claim C3 (counterexample): the Fleet Refresh surface is not available in
every state — with the last refresh failed it reports unavailable even though
the dataset still holds a device with a valid credential. -/
theorem fleet_refresh_unavailable_when_refresh_failed :
    tileRefreshButtonAvailable
      { data := [("T1", { tile_uuid := "T1", name := "Keys", tile_type := none,
                          firmware_version := none, hardware_version := none,
                          auth_key := some "abc" })],
        last_update_success := false } = false := rfl

/-- Claim C3 (amended): the Fleet Refresh surface's availability equals the
last-refresh-success flag inherited from the coordinator base class — true iff
the last dataset refresh succeeded, independent of the dataset contents. -/
theorem fleet_refresh_available_eq_last_update_success (c : Coordinator) :
    tileRefreshButtonAvailable c = c.last_update_success := rfl

/-- Claim C10: each per-device surface's device-grouping metadata is none
exactly when the identity is absent from the current Device Dataset, and is
built from the current snapshot's name, model, firmware and hardware versions
when it is present; all three surfaces agree. -/
theorem device_info_matches_dataset (c : Coordinator) (u : String) :
    tileLocateButtonDeviceInfo c u = (dictGet c.data u).map (fun t =>
        { identifiers := t.tile_uuid, name := t.name, manufacturer := "Tile",
          model := pyOrStr t.tile_type "Tile Tracker",
          sw_version := t.firmware_version, hw_version := t.hardware_version }) ∧
    tileRefreshDeviceButtonDeviceInfo c u = tileLocateButtonDeviceInfo c u ∧
    tileScanButtonDeviceInfo c u = tileLocateButtonDeviceInfo c u := by
  refine ⟨?_, rfl, rfl⟩
  unfold tileLocateButtonDeviceInfo tileButtonDeviceInfoBody
  rw [buttonTile_eq_dictGet]
  cases dictGet c.data u <;> rfl

/-- Claim C9: pressing the per-device Refresh surface issues exactly the same
backend operation as pressing the Fleet Refresh surface — one refresh request
to the polling engine — and that operation does not depend on the identity the
per-device surface targets. -/
theorem refresh_device_press_same_operation_as_fleet (u : String) :
    (tileRefreshDeviceButtonPress u).calls = tileRefreshButtonPress.calls ∧
    (tileRefreshDeviceButtonPress u).calls = [BackendCall.requestRefresh] :=
  ⟨rfl, rfl⟩

/-- Registered locate-surface uuids distribute over appending surfaces. -/
theorem existingUuids_append (a b : List Surface) :
    existingUuids (a ++ b) = existingUuids a ++ existingUuids b := by
  simp [existingUuids]

/-- After one reconciliation step, every uuid of the dataset has a registered
locate surface. -/
theorem mem_existingUuids_of_reconciled (data : List (String × TileDevice))
    (surfaces : List Surface) (u : String) (hu : u ∈ data.map Prod.fst) :
    u ∈ existingUuids (async_check_new_tiles data surfaces) := by
  unfold async_check_new_tiles
  rw [existingUuids_append]
  by_cases h : (existingUuids surfaces).contains u
  · exact List.mem_append_left _ (by simpa using h)
  · apply List.mem_append_right
    unfold newTileEntities existingUuids
    apply List.mem_map.mpr
    refine ⟨⟨SurfaceKind.locate, u⟩, ?_, rfl⟩
    apply List.mem_filter.mpr
    refine ⟨?_, by rfl⟩
    apply List.mem_flatMap.mpr
    refine ⟨u, ?_, by simp [tileEntityTriple]⟩
    refine List.mem_filter.mpr ⟨hu, ?_⟩
    rw [Bool.not_eq_true']
    exact Bool.eq_false_iff.mpr h

/-- Claim C5: reconciliation is idempotent — running `async_check_new_tiles`
twice with an unchanged Device Dataset registers no further surfaces, so an
identity that already has surfaces is left untouched. -/
theorem async_check_new_tiles_idempotent (data : List (String × TileDevice))
    (surfaces : List Surface) :
    async_check_new_tiles data (async_check_new_tiles data surfaces) =
      async_check_new_tiles data surfaces := by
  have hnil : newTileEntities data (async_check_new_tiles data surfaces) = [] := by
    unfold newTileEntities
    have hfil : (data.map Prod.fst).filter
        (fun u => !(existingUuids (async_check_new_tiles data surfaces)).contains u) = [] := by
      apply List.filter_eq_nil_iff.mpr
      intro u hu
      have hm := mem_existingUuids_of_reconciled data surfaces u hu
      simp [hm]
    rw [hfil]
    rfl
  calc async_check_new_tiles data (async_check_new_tiles data surfaces)
      = async_check_new_tiles data surfaces ++
          newTileEntities data (async_check_new_tiles data surfaces) := rfl
    _ = async_check_new_tiles data surfaces ++ [] := by rw [hnil]
    _ = async_check_new_tiles data surfaces := List.append_nil _

/-- Claim C8: Control Surfaces are never removed — across any sequence of
reconciliation steps with arbitrary datasets, the previously registered
surfaces survive in place (each step only appends new surfaces), even when an
identity no longer appears in any later dataset. -/
theorem surfaces_never_removed (ds : List (List (String × TileDevice)))
    (surfaces : List Surface) :
    surfaces.Sublist
      (ds.foldl (fun acc data => async_check_new_tiles data acc) surfaces) := by
  induction ds generalizing surfaces with
  | nil => simp
  | cons d ds ih =>
      exact List.Sublist.trans
        (List.sublist_append_left surfaces (newTileEntities d surfaces)) (ih _)

/-- Claim C2: when the resolved snapshot's authorization credential is
absent/empty, the Locate press makes no backend call and is treated as a
failed ring (a failure warning is logged); moreover every cloud ring call a
Locate press ever issues carries a non-empty credential. -/
theorem locate_press_no_ring_without_credential (c : Coordinator) (u : String)
    (cloudRingSuccess : Bool) :
    (∀ t, buttonTile c u = some t → pyTruthyOptStr t.auth_key = false →
        (tileLocateButtonPress c u cloudRingSuccess).calls = [] ∧
        (tileLocateButtonPress c u cloudRingSuccess).logs =
          [⟨LogLevel.info, "Locating Tile: " ++ t.name⟩,
           ⟨LogLevel.warning, "Failed to ring Tile " ++ t.name⟩]) ∧
    (∀ uu k, BackendCall.ringTile uu k ∈ (tileLocateButtonPress c u cloudRingSuccess).calls →
        pyTruthyOptStr k = true) := by
  constructor
  · intro t ht hk
    simp [tileLocateButtonPress, ht, ring_tile, hk]
  · intro uu k hm
    unfold tileLocateButtonPress at hm
    cases hb : buttonTile c u with
    | none => simp [hb] at hm
    | some t =>
      rw [hb] at hm
      simp only [ring_tile] at hm
      by_cases hk : pyTruthyOptStr t.auth_key
      · simp [hk] at hm
        rw [hm.2]
        exact hk
      · simp [hk] at hm

/-- Witness for the credential guard: device T1 present with no credential —
the Locate press issues no backend call. -/
theorem locate_press_no_ring_without_credential_witness :
    (tileLocateButtonPress
        { data := [("T1", { tile_uuid := "T1", name := "Wallet", tile_type := none,
                            firmware_version := none, hardware_version := none,
                            auth_key := none })], last_update_success := true }
        "T1" true).calls = [] :=
  ((locate_press_no_ring_without_credential
      { data := [("T1", { tile_uuid := "T1", name := "Wallet", tile_type := none,
                          firmware_version := none, hardware_version := none,
                          auth_key := none })], last_update_success := true }
      "T1" true).1
    { tile_uuid := "T1", name := "Wallet", tile_type := none,
      firmware_version := none, hardware_version := none, auth_key := none }
    (by rfl) (by rfl)).1

/-- Claim C4: invoking Locate or Scan for an identity absent from the current
Device Dataset performs zero backend calls and logs exactly one error, with no
other effect. -/
theorem press_not_found_aborts (c : Coordinator) (u : String)
    (cloudRingSuccess : Bool) (bleResult : Option BleDevice)
    (h : dictGet c.data u = none) :
    tileLocateButtonPress c u cloudRingSuccess =
      { calls := [], logs := [⟨LogLevel.error, "Tile not found: " ++ u⟩] } ∧
    tileScanButtonPress c u bleResult =
      { calls := [], logs := [⟨LogLevel.error, "Tile not found: " ++ u⟩] } := by
  have hb : buttonTile c u = none := by rw [buttonTile_eq_dictGet]; exact h
  exact ⟨by simp [tileLocateButtonPress, hb], by simp [tileScanButtonPress, hb]⟩

/-- Witness for the not-found abort at the empty dataset. -/
theorem press_not_found_aborts_witness :
    tileLocateButtonPress { data := [], last_update_success := true } "T1" true =
      { calls := [], logs := [⟨LogLevel.error, "Tile not found: " ++ "T1"⟩] } :=
  (press_not_found_aborts { data := [], last_update_success := true } "T1" true none
    (by rfl)).1

/-- Claim C7: pressing Scan on an identity present in the dataset calls the
radio backend exactly once with the force-scan flag set to true; when the
backend reports nothing exactly one warning is logged, and when it reports a
device its address is logged. -/
theorem scan_press_forces_scan (c : Coordinator) (u : String)
    (bleResult : Option BleDevice) (t : TileDevice)
    (h : dictGet c.data u = some t) :
    (tileScanButtonPress c u bleResult).calls = [BackendCall.findTileBle u true] ∧
    (bleResult = none →
        (tileScanButtonPress c u bleResult).logs =
          [⟨LogLevel.info, "Scanning for Tile: " ++ t.name⟩,
           ⟨LogLevel.warning, "Tile " ++ t.name ++ " not found nearby"⟩]) ∧
    (∀ d, bleResult = some d →
        (tileScanButtonPress c u bleResult).logs =
          [⟨LogLevel.info, "Scanning for Tile: " ++ t.name⟩,
           ⟨LogLevel.info, "Found Tile " ++ t.name ++ " at " ++ d.address⟩]) := by
  have hb : buttonTile c u = some t := by rw [buttonTile_eq_dictGet]; exact h
  refine ⟨by simp [tileScanButtonPress, hb], ?_, ?_⟩
  · intro hn
    subst hn
    simp [tileScanButtonPress, hb]
  · intro d hd
    subst hd
    simp [tileScanButtonPress, hb]

/-- Witness for the forced scan: device T1 present, backend reports nothing —
the press issues exactly the forced radio call. -/
theorem scan_press_forces_scan_witness :
    (tileScanButtonPress
        { data := [("T1", { tile_uuid := "T1", name := "Keys", tile_type := none,
                            firmware_version := none, hardware_version := none,
                            auth_key := some "abc" })], last_update_success := true }
        "T1" none).calls = [BackendCall.findTileBle "T1" true] :=
  (scan_press_forces_scan
      { data := [("T1", { tile_uuid := "T1", name := "Keys", tile_type := none,
                          firmware_version := none, hardware_version := none,
                          auth_key := some "abc" })], last_update_success := true }
      "T1" none
      { tile_uuid := "T1", name := "Keys", tile_type := none,
        firmware_version := none, hardware_version := none, auth_key := some "abc" }
      (by rfl)).1

end TileTracker
